import Mathlib

/-!
Shallow embedding of the n0-snafu unified-error core (`src/error.rs`,
`src/report.rs`) and proofs about it.

Conventions used throughout:
* Rust strings are modelled as Lean `String`s; string algorithms work on the
  underlying `List Char` (`String.data`) so that everything evaluates by
  `decide`/`rfl`.  Rust's `str::len` is a byte count; for the texts handled
  here only the character count matters (the code compares lengths of a
  string and one of its prefixes, which agree in bytes iff in chars).
* Effects that capture data at the call site (`GenerateImplicitData::generate`
  for span traces and backtraces) are modelled by passing the captured value
  as an explicit argument.
* External collaborators (`color_backtrace`, `snafu`, `anyhow`, `btparse`)
  are modelled by their interfaces: a backtrace is its normalized frame list,
  a foreign error is its display text, its declared-cause chain, and the
  result of the runtime capability probe `downcast_ref::<&dyn Formatted>`.
-/

namespace N0Snafu

/-- One stack frame of a normalized captured backtrace
(`color_backtrace::Frame`).  The filter pipeline in `Debug for Error` only
reads the frame's symbol name and `is_dependency_code()`, so those are the
two components modelled; `is_dependency_code` is computed by the external
`color_backtrace` crate from data we do not re-model, hence it is a field. -/
structure Frame where
  name : Option String
  isDependencyCode : Bool
deriving DecidableEq, Repr

/-- Frames of a `snafu::Backtrace` (the "crate" capture shape), already
normalized to the frame sequence it yields. -/
abbrev CrateBacktrace := List Frame

/-- Frames of a `std::backtrace::Backtrace` after `btparse` deserialization
(the "std" capture shape). -/
abbrev StdBacktrace := List Frame

/-- The `Backtrace<'a>` enum of `src/error.rs`: one of the two externally
produced capture shapes. -/
inductive Backtrace where
  | crate (bt : CrateBacktrace)
  | std (bt : StdBacktrace)
deriving DecidableEq, Repr

/-- The `frames()` method of `impl color_backtrace::Backtrace for Backtrace`:
both shapes yield their normalized frame list. -/
def Backtrace.frames : Backtrace → List Frame
  | .crate bt => bt
  | .std bt => bt

/-- A captured span trace (`crate::SpanTrace`): its status (captured or not)
and its display text, both fixed at capture time. -/
structure SpanTrace where
  captured : Bool
  text : String
deriving DecidableEq, Repr

/-- An opaque foreign error (`dyn snafu::Error + Sync + Send`): its display
text, the outcome of the runtime capability probe
`s.downcast_ref::<&dyn Formatted>()` (`none` when the downcast fails,
`some bt` when it succeeds and `this.backtrace()` returns `bt`), and its
declared cause (`s.source()`).  The cause field `Option<dyn Error>` is split
into the two constructors `last` (no cause) and `cons` (a cause) so that the
type is not a nested inductive; `Foreign.mk'` reconstitutes the source
shape. -/
inductive Foreign where
  | last (text : String) (probe : Option (Option Backtrace))
  | cons (text : String) (probe : Option (Option Backtrace)) (src : Foreign)
deriving DecidableEq, Repr

/-- Constructor taking the cause as an `Option`, matching the Rust shape. -/
def Foreign.mk' (text : String) (probe : Option (Option Backtrace))
    (src : Option Foreign) : Foreign :=
  match src with
  | none => .last text probe
  | some s => .cons text probe s

/-- Display text of a foreign error. -/
def Foreign.text : Foreign → String
  | .last t _ => t
  | .cons t _ _ => t

/-- Capability-probe outcome of a foreign error. -/
def Foreign.probe : Foreign → Option (Option Backtrace)
  | .last _ p => p
  | .cons _ p _ => p

/-- Declared cause (`Error::source`) of a foreign error. -/
def Foreign.src : Foreign → Option Foreign
  | .last _ _ => none
  | .cons _ _ s => some s

/-- Length of the foreign error's own natural cause chain: the error itself
plus each link of its declared-cause chain (what Rust's chain iterator
yields). -/
def Foreign.chainLength : Foreign → Nat
  | .last _ _ => 1
  | .cons _ _ s => 1 + s.chainLength

/-- A foreign error statically known to implement the `Formatted` trait
(the `Box<dyn Formatted>` field of `Error::Source`): its display text, its
`ErrorCompat::backtrace` and its declared cause chain. -/
structure FormattedErr where
  text : String
  bt : Option CrateBacktrace
  src : Option Foreign
deriving DecidableEq, Repr

/-- An `anyhow::Error`: its display text, the `std` backtrace it always
exposes, and the tail of its pre-linearized cause chain
(`source.chain().skip(1)`), each element with its display text and
capability-probe outcome. -/
structure AnyhowErr where
  text : String
  bt : StdBacktrace
  chainRest : List (String × Option (Option Backtrace))
deriving DecidableEq, Repr

/-- The Unified Error Value (`enum Error` of `src/error.rs`).  The
`Whatever` variant's field `source : Option<Box<Error>>` is split into the
two constructors `whateverNone` / `whateverSome` so that the type is not a
nested inductive; `Error.whatever` reconstitutes the source shape. -/
inductive Error where
  | source (src : FormattedErr) (spanTrace : SpanTrace) (backtrace : Option CrateBacktrace)
  | message (msg : Option String) (src : Foreign) (spanTrace : SpanTrace)
      (backtrace : Option CrateBacktrace)
  | anyhow (src : AnyhowErr) (spanTrace : SpanTrace) (backtrace : Option CrateBacktrace)
  | whateverNone (msg : Option String) (spanTrace : SpanTrace) (backtrace : Option CrateBacktrace)
  | whateverSome (msg : Option String) (spanTrace : SpanTrace) (src : Error)
      (backtrace : Option CrateBacktrace)
deriving DecidableEq, Repr

/-- The `Whatever` variant with its nested cause as an `Option`, matching
the Rust field shape. -/
def Error.whatever (msg : Option String) (spanTrace : SpanTrace) (src : Option Error)
    (backtrace : Option CrateBacktrace) : Error :=
  match src with
  | none => .whateverNone msg spanTrace backtrace
  | some s => .whateverSome msg spanTrace s backtrace

/-- The `span_trace` accessor of `Error`. -/
def Error.spanTrace : Error → SpanTrace
  | .source _ st _ => st
  | .message _ _ st _ => st
  | .anyhow _ st _ => st
  | .whateverNone _ st _ => st
  | .whateverSome _ st _ _ => st

/-- The `backtrace` field of an `Error` value. -/
def Error.backtraceField : Error → Option CrateBacktrace
  | .source _ _ bt => bt
  | .message _ _ _ bt => bt
  | .anyhow _ _ bt => bt
  | .whateverNone _ _ bt => bt
  | .whateverSome _ _ _ bt => bt

/-- The `Error::backtrace` method: the directly captured backtrace wrapped
as `Backtrace::Crate`. -/
def Error.backtraceM (e : Error) : Option Backtrace :=
  e.backtraceField.map .crate

/-- The `Display for Error` implementation. -/
def Error.display : Error → String
  | .source src _ _ => src.text
  | .whateverNone msg _ _ =>
      match msg with
      | some m => m
      | none => "Error"
  | .whateverSome msg _ s _ =>
      match msg with
      | some m => m ++ ": " ++ s.display
      | none => s.display
  | .message msg src _ _ =>
      match msg with
      | some m => m ++ ": " ++ src.text
      | none => src.text
  | .anyhow a _ _ => a.text

/-- The `Source<'a>` enum of `src/error.rs`: one renderable chain node.
Each reference-carrying variant is modelled by the display text it renders
(its `Display` delegates to the referenced error). -/
inductive Source where
  | root
  | formatted (text : String)
  | snafuError (text : String)
  | error (text : String)
  | anyhow (text : String)
deriving DecidableEq, Repr

/-- The `Display for Source` implementation. -/
def Source.display : Source → String
  | .root => "Root"
  | .formatted t => t
  | .snafuError t => t
  | .error t => t
  | .anyhow t => t

/-- One walker output node: `(Option<Backtrace>, Source)`. -/
abbrev Node := Option Backtrace × Source

/-- One step of the probing loop in `Error::stack`: a chain link whose
capability probe succeeds becomes a `Source::Formatted` node carrying
`this.backtrace()`; one whose probe fails becomes a `Source::SnafuError`
node with no backtrace. -/
def probeNode (f : Foreign) : Node :=
  match f.probe with
  | some bt => (bt, .formatted f.text)
  | none => (none, .snafuError f.text)

/-- The `while let Some(s) = source` probing loop of `Error::stack`,
unrolled over the links of a foreign chain. -/
def walkChainF : Foreign → List Node
  | .last t p => [probeNode (.last t p)]
  | .cons t p s => probeNode (.cons t p s) :: walkChainF s

/-- The probing loop started from a possibly absent first link. -/
def walkChain : Option Foreign → List Node
  | none => []
  | some f => walkChainF f

/-- The `Error::stack` causal-chain walker of `src/error.rs` (lines
346-423), linearizing an `Error` into its ordered node list. -/
def Error.stack : Error → List Node
  | .source src _ bt =>
      (bt.map .crate, .root)
        :: (src.bt.map .crate, .formatted src.text)
        :: walkChain src.src
  | .message _ src _ bt =>
      (bt.map .crate, .root) :: walkChain (some src)
  | .anyhow a _ bt =>
      (bt.map .crate, .root)
        :: (some (.std a.bt), .anyhow a.text)
        :: a.chainRest.map (fun p =>
            match p.2 with
            | some b => (b, .formatted p.1)
            | none => ((none : Option Backtrace), .snafuError p.1))
  | .whateverNone _ _ bt =>
      [(bt.map .crate, .root)]
  | .whateverSome _ _ s bt =>
      (bt.map .crate, .root) :: (s.backtraceM, .error s.display) :: s.stack

/-- The fixed cause synthesized for an absent value
(`struct NoneError` with `#[snafu(display("Expected some, found none"))]`):
a source-less snafu error whose `downcast_ref::<&dyn Formatted>` probe
fails. -/
def noneError : Foreign := .last "Expected some, found none" none

/-- The `ResultExt::context` impl for `Result<T, E>` with `E` a foreign
snafu error.  The span trace and backtrace captured by
`GenerateImplicitData::generate()` at the call site are passed explicitly. -/
def contextForeign {T : Type} (r : Except Foreign T) (c : String)
    (st : SpanTrace) (bt : Option CrateBacktrace) : Except Error T :=
  match r with
  | .ok v => .ok v
  | .error e => .error (.message (some c) e st bt)

/-- The `ResultExt::with_context` impl for `Result<T, E>` with `E` foreign. -/
def withContextForeign {T : Type} (r : Except Foreign T) (c : Unit → String)
    (st : SpanTrace) (bt : Option CrateBacktrace) : Except Error T :=
  match r with
  | .ok v => .ok v
  | .error e => .error (.message (some (c ())) e st bt)

/-- The `ResultExt::context` impl for `Result<T, Error>`: re-wrapping an
existing Unified Error Value produces a `Whatever`. -/
def contextError {T : Type} (r : Except Error T) (c : String)
    (st : SpanTrace) (bt : Option CrateBacktrace) : Except Error T :=
  match r with
  | .ok v => .ok v
  | .error e => .error (.whatever (some c) st (some e) bt)

/-- The `ResultExt::with_context` impl for `Result<T, Error>`. -/
def withContextError {T : Type} (r : Except Error T) (c : Unit → String)
    (st : SpanTrace) (bt : Option CrateBacktrace) : Except Error T :=
  match r with
  | .ok v => .ok v
  | .error e => .error (.whatever (some (c ())) st (some e) bt)

/-- The `ResultExt::context` impl for `Option<T>`: `None` is wrapped with
the synthesized `NoneError` cause. -/
def contextOption {T : Type} (o : Option T) (c : String)
    (st : SpanTrace) (bt : Option CrateBacktrace) : Except Error T :=
  match o with
  | some v => .ok v
  | none => .error (.message (some c) noneError st bt)

/-- Whether a `Result` is the failure variant (`is_err`). -/
def isErr {T : Type} : Except Error T → Bool
  | .error _ => true
  | .ok _ => false

/-!  String helpers mirroring the Rust `str` operations used by
`CleanedErrorText::next` (`src/report.rs` lines 359-386), working on the
underlying character lists. -/

/-- Rust's `str::trim_end_matches(pat)` with a string pattern: repeatedly
removes an exact trailing occurrence of `pat`.  A trailing empty-pattern
match removes nothing, so the empty pattern leaves the input unchanged,
exactly as in Rust. -/
def trimEndMatchesL (s pat : List Char) : List Char :=
  if h : pat ≠ [] ∧ pat.isSuffixOf s then
    trimEndMatchesL (s.take (s.length - pat.length)) pat
  else s
termination_by s.length
decreasing_by
  have hsuf : pat <:+ s := by
    have h2 := h.2
    rwa [List.isSuffixOf_iff_suffix] at h2
  have hle : pat.length ≤ s.length := hsuf.length_le
  have hpos : 0 < pat.length := List.length_pos.mpr h.1
  simp only [List.length_take]
  omega

/-- Rust's `str::trim_end`: removes trailing whitespace.  Modelled with
Lean's `Char.isWhitespace` (the ASCII range of Rust's Unicode
`White_Space`). -/
def trimEndL (s : List Char) : List Char :=
  (s.reverse.dropWhile Char.isWhitespace).reverse

/-- Rust's `str::trim_end_matches(':')` with a `char` pattern: removes all
trailing colons. -/
def trimEndColonsL (s : List Char) : List Char :=
  (s.reverse.dropWhile (· == ':')).reverse

/-- One comparison step of `CleanedErrorText::next`: given the current
level's display text and its cause's display text, compute
`error_text.trim_end_matches(&next_error_text).trim_end().trim_end_matches(':')`,
the cleaned flag (`cleaned_text.len() != error_text.len()`), and the output
text `error_text.truncate(cleaned_len)`. -/
def cleanStep (errorText nextText : String) : String × Bool :=
  let ct := trimEndColonsL (trimEndL (trimEndMatchesL errorText.data nextText.data))
  (String.mk (errorText.data.take ct.length), decide (ct.length ≠ errorText.data.length))

/-- The `CleanedErrorText` iterator of `src/report.rs`, run to completion
over a foreign error chain: yields, per level, the error, its (possibly
cleaned) display text and the cleaned flag.  The last level (no declared
cause) contributes its raw text with the flag `false`. -/
def cleanedErrorText : Foreign → List (Foreign × String × Bool)
  | .last t p => [(.last t p, t, false)]
  | .cons t p s => (.cons t p s, (cleanStep t s.text).1, (cleanStep t s.text).2)
      :: cleanedErrorText s

/-!  The report formatter (`src/report.rs`). -/

/-- The error type accepted by `Report` / `ReportFormatter`: a `dyn
Formatted` failure, modelled by its chain (display text plus declared
causes) and the backtrace its `Formatted::backtrace` exposes. -/
structure FErr where
  err : Foreign
  bt : Option Backtrace
deriving DecidableEq, Repr

/-- The `snafu::ChainCompat` iterator: the error itself followed by each
link of its declared-cause chain. -/
def chainList : Foreign → List Foreign
  | .last t p => [.last t p]
  | .cons t p s => .cons t p s :: chainList s

/-- The `{:3}` format used for the numbered cause lines: the index
right-aligned to a minimum width of three. -/
def pad3 (n : Nat) : String :=
  if n < 10 then "  " ++ toString n
  else if n < 100 then " " ++ toString n
  else toString n

/-- The numbered raw cause lines printed by the `for (i, source)` loop of
`ReportFormatter::error_trace`: one-indexed, each level's raw display
text. -/
def rawCauseLines (sources : List Foreign) : String :=
  String.join (sources.mapIdx (fun i s => pad3 (i + 1) ++ ": " ++ s.text ++ "\n"))

/-- The caused-by trailer of `ReportFormatter::error_trace`, selected by
`plurality = sources.clone().take(2).count()`. -/
def causedByTrailer (plurality : Nat) : String :=
  match plurality with
  | 0 => ""
  | 1 => "\nCaused by this error:\n"
  | _ => "\nCaused by these errors (recent errors listed first):\n"

/-- `ReportFormatter::error_trace` (`src/report.rs` lines 218-238): the
failure's display text, the caused-by trailer selected by how many proper
causes exist, then the one-indexed raw cause lines. -/
def errorTrace (e : FErr) : String :=
  let sources := (chainList e.err).drop 1
  e.err.text ++ "\n"
    ++ causedByTrailer (min sources.length 2)
    ++ rawCauseLines sources

/-- Debug rendering of a backtrace (`writeln!(f, "..{:?}", bt)`): external
(`color_backtrace`/`std`) formatting, modelled as one line per frame name. -/
def btDebugString (bt : Backtrace) : String :=
  String.join (bt.frames.map (fun fr => fr.name.getD "<unknown>" ++ "\n"))

/-- The name of the toggle environment variable
(`SNAFU_RAW_ERROR_MESSAGES`). -/
def SNAFU_RAW_ERROR_MESSAGES : String := "SNAFU_RAW_ERROR_MESSAGES"

/-- The `trace_cleaning_enabled` function (`src/report.rs` lines 310-316):
cleaning is disabled exactly when the variable's value is `"1"`.  The
`OnceBool` cell (module `once_bool`, not under `src/`) is modelled from the
spec: a lazily initialized, write-once cache of a value computed from the
environment on first access — on an unchanged environment it is
observationally a pure read of the variable, which is how it is modelled
(the environment value is the `envRaw` argument, `none` when unset). -/
def trace_cleaning_enabled (envRaw : Option String) : Bool :=
  !(match envRaw with
    | some v => v == "1"
    | none => false)

/-- The final backtrace block of `Display for ReportFormatter`: printed
when the failure's `Formatted::backtrace` yields one. -/
def btBlock (e : FErr) : String :=
  match e.bt with
  | some bt => "\nBacktrace:\n" ++ btDebugString bt ++ "\n"
  | none => ""

/-- The `Display for ReportFormatter` implementation (`src/report.rs` lines
197-215).  In the source the call to `trace_cleaning_enabled()` and the
`cleaned_error_trace` branch are commented out (`TODO: enable once
upcasting is stable`), so the formatter unconditionally takes the
`error_trace` path and the output does not depend on the environment
toggle, which is still received here as `envRaw`.  The stray debug prints
(`eprintln!("--- display")` etc.) write to the error stream, not to the
formatter, and are not part of the formatted output. -/
def reportFormatterFmt (e : FErr) (_envRaw : Option String) : String :=
  errorTrace e ++ btBlock e

/-- What `ReportFormatter::cleaned_error_trace` (`src/report.rs` lines
241-305) would print: the text-deduplication pass of spec section 4.5.  In
the source this function is dead code behind a `todo!()`, kept here to
state what the cleaned output of a chain is. -/
def cleanedErrorTrace (e : FErr) : String :=
  let items := cleanedErrorText e.err
  let anyCleaned := items.any (fun it => !it.2.1.isEmpty && it.2.2)
  let anyRemoved := items.any (fun it => it.2.1.isEmpty)
  let cleanedMessages := items.filterMap (fun it =>
    if it.2.1.isEmpty then none
    else if it.2.2 then some (it.2.1 ++ " *") else some it.2.1)
  match cleanedMessages with
  | [] => ""
  | head :: rest =>
      head ++ "\n"
        ++ (match cleanedMessages.length with
            | 0 | 1 => ""
            | 2 => "\nCaused by this error:\n"
            | _ => "\nCaused by these errors (recent errors listed first):\n")
        ++ String.join (rest.mapIdx (fun i msg => pad3 (i + 1) ++ ": " ++ msg ++ "\n"))
        ++ (if anyCleaned || anyRemoved then
              "\nNOTE: "
                ++ (if anyCleaned then
                      "Some redundant information has been removed from the lines marked with *. "
                    else "Some redundant information has been removed. ")
                ++ "Set " ++ SNAFU_RAW_ERROR_MESSAGES ++ "=1 to disable this behavior.\n"
            else "")

/-- The `Report<E>` wrapper: a `Result<(), E>`. -/
structure Report where
  result : Except FErr Unit
deriving Repr

/-- `Report::from_error`. -/
def Report.from_error (e : FErr) : Report := ⟨.error e⟩

/-- `Report::ok`. -/
def Report.ok : Report := ⟨.ok ()⟩

/-- The `Termination for Report<E>` implementation (`src/report.rs` lines
179-193): the process exit status (`ExitCode::SUCCESS` is `0`,
`ExitCode::FAILURE` is `1`) and what the `eprintln!("Error: {}", ..)` call
writes to the error stream.  On success nothing is written. -/
def Report.termination (r : Report) (envRaw : Option String) : Nat × String :=
  match r.result with
  | .ok _ => (0, "")
  | .error e => (1, "Error: " ++ reportFormatterFmt e envRaw ++ "\n")

/-!  The full-trace renderer (`impl Debug for Error`, `src/error.rs` lines
253-316) and its frame-filter pipeline. -/

/-- The `color_backtrace::Verbosity` levels. -/
inductive Verbosity where
  | minimal
  | medium
  | full
deriving DecidableEq, Repr

/-- The fixed list of self-referential frame-name markers of the always-on
noise filter (`src/error.rs` lines 257-262). -/
def noiseFilters : List String :=
  [ "<n0_snafu::testerror::Error"
  , "n0_snafu::testerror::Error::anyhow"
  , "<core::pin::Pin<P> as core::future::future::Future>::poll"
  , "<core::result::Result<T,F> as core::ops::try_trait::FromResidual<core::result::Result<core::convert::Infallible,E>>>::from_residual"
  ]

/-- Rust's `str::starts_with` on the character lists. -/
def strStartsWith (s pat : String) : Bool :=
  pat.data.isPrefixOf s.data

/-- The retention predicate of the noise filter closure: a frame without a
name is kept; a named frame is kept iff its name starts with none of the
fixed markers. -/
def retainFrame (fr : Frame) : Bool :=
  (fr.name.map (fun n => !(noiseFilters.any (fun f => strStartsWith n f)))).getD true

/-- The full filter pipeline of the printer built in `Debug for Error`: the
always-on noise filter, then — unless verbosity is `Full` — the dependency
filter `frames.retain(|frame| !frame.is_dependency_code())`. -/
def filterFrames (verb : Verbosity) (frames : List Frame) : List Frame :=
  let fs := frames.filter retainFrame
  if verb ≠ .full then fs.filter (fun fr => !fr.isDependencyCode) else fs

/-- Rendering of the retained frames to text
(`BacktracePrinter::format_trace_to_string` after the filters ran):
external `color_backtrace` formatting, modelled as one line per frame
name. -/
def formatFrames (frames : List Frame) : String :=
  String.join (frames.map (fun fr => fr.name.getD "<unknown>" ++ "\n"))

/-- `printer.format_trace_to_string(&bt)`: the backtrace's frames run
through the filter pipeline and formatted. -/
def printerFormatTrace (verb : Verbosity) (bt : Backtrace) : String :=
  formatFrames (filterFrames verb bt.frames)

/-- The `Debug for Error` renderer as a function of the error and the
verbosity read by `Verbosity::from_env()` at entry: blank line; the
non-root chain nodes printed as `    {i}: {display}` with `i` enumerating
all post-root nodes; blank line; the span trace block when captured; then
one filtered backtrace block per chain node, an absent backtrace replaced
by the empty `Backtrace::Crate`. -/
def renderDebug (e : Error) (verb : Verbosity) : String :=
  let stack := e.stack
  "\n"
    ++ String.join ((stack.drop 1).mapIdx (fun i node =>
        match node.2 with
        | .root => ""
        | s => "    " ++ toString i ++ ": " ++ s.display ++ "\n"))
    ++ "\n"
    ++ (if e.spanTrace.captured then
          "Span trace:\n" ++ e.spanTrace.text ++ "\n\n"
        else "")
    ++ String.join (stack.map (fun node =>
        "\n" ++ printerFormatTrace verb (node.1.getD (.crate [])) ++ "\n"))

/-- The process-wide state the diagnostic code can observe or mutate: the
verbosity source read by `Verbosity::from_env()`, the raw-messages toggle
variable, and the write-once `OnceBool` cell backing
`trace_cleaning_enabled` (spec section 5). -/
structure ProcState where
  verbosity : Verbosity
  rawMessagesVar : Option String
  cleaningCache : Option Bool
deriving DecidableEq, Repr

/-- The `Debug for Error` renderer with the ambient process state threaded
explicitly: it reads the verbosity from the state and mutates nothing
(`Error::stack` allocates a fresh node list, the printer and its filters
are rebuilt locally on every call, and the `OnceBool` cell is never
touched on this path). -/
def renderDebugSt (e : Error) (s : ProcState) : String × ProcState :=
  (renderDebug e s.verbosity, s)

/-!  Helper lemmas. -/

/-- Whether a walker node is the root marker. -/
def isRootNode (n : Node) : Bool :=
  match n.2 with
  | .root => true
  | _ => false

/-- No two adjacent nodes of the list are both root markers. -/
def noAdjRoots : List Node → Bool
  | a :: b :: rest => (!(isRootNode a && isRootNode b)) && noAdjRoots (b :: rest)
  | _ => true

theorem noAdjRoots_cons_of (a : Node) (l : List Node) (ha : isRootNode a = false)
    (hl : noAdjRoots l = true) : noAdjRoots (a :: l) = true := by
  cases l with
  | nil => rfl
  | cons b t => simp [noAdjRoots, ha] ; exact hl

theorem noAdjRoots_cons₂ (r b : Node) (t : List Node) (hb : isRootNode b = false)
    (h : noAdjRoots (b :: t) = true) : noAdjRoots (r :: b :: t) = true := by
  simp [noAdjRoots, hb] ; exact h

theorem noAdjRoots_all (l : List Node) (h : ∀ x ∈ l, isRootNode x = false) :
    noAdjRoots l = true := by
  induction l with
  | nil => rfl
  | cons a t ih =>
      exact noAdjRoots_cons_of a t (h a (by simp)) (ih (fun x hx => h x (by simp [hx])))

theorem noAdjRoots_root_cons (r : Node) (l : List Node)
    (h : ∀ x ∈ l, isRootNode x = false) : noAdjRoots (r :: l) = true := by
  cases l with
  | nil => rfl
  | cons b t =>
      exact noAdjRoots_cons₂ r b t (h b (by simp)) (noAdjRoots_all _ h)

theorem probeNode_nonroot (f : Foreign) : isRootNode (probeNode f) = false := by
  unfold probeNode
  cases f.probe <;> rfl

theorem walkChainF_nonroot (f : Foreign) : ∀ x ∈ walkChainF f, isRootNode x = false := by
  induction f with
  | last t p => intro x hx; simp [walkChainF] at hx; subst hx; exact probeNode_nonroot _
  | cons t p s ih =>
      intro x hx
      simp [walkChainF] at hx
      rcases hx with h | h
      · subst h; exact probeNode_nonroot _
      · exact ih x h

theorem walkChainF_length (f : Foreign) : (walkChainF f).length = f.chainLength := by
  induction f with
  | last t p => rfl
  | cons t p s ih => simp [walkChainF, Foreign.chainLength, ih]; omega

/-- The causal chain produced by `Error::stack` never holds two adjacent
root markers: every root other than the outermost one is preceded by the
`Source::Error` node that the `Whatever` arm pushes before extending with
the nested stack. -/
theorem stack_noAdjRoots : (e : Error) → noAdjRoots e.stack = true
  | .source src _ bt => by
      refine noAdjRoots_root_cons _ _ ?_
      intro x hx
      simp [Error.stack] at hx
      rcases hx with h | h
      · subst h; rfl
      · cases hsrc : src.src with
        | none => rw [hsrc] at h; simp [walkChain] at h
        | some f => rw [hsrc] at h; exact walkChainF_nonroot f x h
  | .message _ src _ bt => by
      refine noAdjRoots_root_cons _ _ ?_
      intro x hx
      simp [Error.stack, walkChain] at hx
      exact walkChainF_nonroot src x hx
  | .anyhow a _ bt => by
      refine noAdjRoots_root_cons _ _ ?_
      intro x hx
      rw [List.mem_cons] at hx
      rcases hx with h | h
      · subst h; rfl
      · rw [List.mem_map] at h
        rcases h with ⟨p, _, h⟩
        rw [← h]
        rcases p with ⟨t, pb⟩
        cases pb <;> rfl
  | .whateverNone _ _ _ => rfl
  | .whateverSome _ _ s bt => by
      exact noAdjRoots_cons₂ _ _ _ rfl
        (noAdjRoots_cons_of _ _ rfl (stack_noAdjRoots s))

theorem prefix_take {l₁ l₂ : List Char} (h : l₁ <+: l₂) : l₂.take l₁.length = l₁ :=
  (List.prefix_iff_eq_take.mp h).symm

theorem trimEndL_isPre (s : List Char) : trimEndL s <+: s := by
  have h : s.reverse.dropWhile Char.isWhitespace <:+ s.reverse :=
    List.dropWhile_suffix _
  have h2 := List.reverse_prefix.mpr h
  simpa [trimEndL] using h2

theorem trimEndColonsL_isPre (s : List Char) : trimEndColonsL s <+: s := by
  have h : s.reverse.dropWhile (· == ':') <:+ s.reverse :=
    List.dropWhile_suffix _
  have h2 := List.reverse_prefix.mpr h
  simpa [trimEndColonsL] using h2

theorem trimEndMatchesL_isPre (s pat : List Char) : trimEndMatchesL s pat <+: s := by
  rw [trimEndMatchesL]
  split
  · exact (trimEndMatchesL_isPre _ pat).trans (List.take_prefix _ _)
  · exact List.prefix_refl s
termination_by s.length
decreasing_by
  rename_i h
  have hsuf : pat <:+ s := List.isSuffixOf_iff_suffix.mp h.2
  have hle : pat.length ≤ s.length := hsuf.length_le
  have hpos : 0 < pat.length := List.length_pos.mpr h.1
  simp only [List.length_take]
  omega

/-- Dropping nothing: an end-trim that tests the last character keeps the
whole list when the last character fails the test. -/
theorem revDropWhileKeep (p : Char → Bool) (s : List Char)
    (h : ∀ c, s.getLast? = some c → p c = false) :
    (s.reverse.dropWhile p).reverse = s := by
  cases hs : s.reverse with
  | nil =>
      have : s = [] := by simpa using congrArg List.reverse hs
      simp [this]
  | cons c rest =>
      have hlast : s.getLast? = some c := by
        rw [← List.head?_reverse, hs]; rfl
      have hp : p c = false := h c hlast
      rw [List.dropWhile_cons, hp]
      simp only [Bool.false_eq_true, if_false]
      rw [← hs, List.reverse_reverse]

theorem trimEndMatchesL_no (s pat : List Char) (h : pat.isSuffixOf s = false) :
    trimEndMatchesL s pat = s := by
  rw [trimEndMatchesL]
  simp [h]

theorem trimEndMatchesL_step (y pat : List Char) (hp : pat ≠ []) :
    trimEndMatchesL (y ++ pat) pat = trimEndMatchesL y pat := by
  rw [trimEndMatchesL]
  have hsuf : pat.isSuffixOf (y ++ pat) = true :=
    List.isSuffixOf_iff_suffix.mpr (List.suffix_append y pat)
  have hlen : (y ++ pat).length - pat.length = y.length := by
    simp [List.length_append]
  simp only [hp, hsuf, and_true, ne_eq, not_false_iff, dite_true]
  rw [hlen, List.take_left]

/-- Whether the last character of a text is neither whitespace nor a
colon (so the unconditional trailing trims of `CleanedErrorText::next`
remove nothing from it). -/
def lastCharOk (l : List Char) : Bool :=
  match l.getLast? with
  | none => true
  | some c => !c.isWhitespace && !(c == ':')

theorem data_append (s t : String) : (s ++ t).data = s.data ++ t.data := rfl

/-- `cleanStep` written out without the intermediate `let`. -/
theorem cleanStepData (t next : String) :
    cleanStep t next
      = (String.mk (t.data.take
            (trimEndColonsL (trimEndL (trimEndMatchesL t.data next.data))).length),
         decide ((trimEndColonsL (trimEndL (trimEndMatchesL t.data next.data))).length
            ≠ t.data.length)) := rfl

theorem trimEndMatchesL_reps (base pat : List Char) (k : Nat) (hp : pat ≠ []) :
    trimEndMatchesL (base ++ (List.replicate k pat).flatten) pat
      = trimEndMatchesL base pat := by
  induction k generalizing base with
  | zero => simp
  | succ n ih =>
      have hrep : (List.replicate (n + 1) pat).flatten
          = (List.replicate n pat).flatten ++ pat := by
        rw [List.replicate_succ']
        simp
      rw [hrep, ← List.append_assoc, trimEndMatchesL_step _ pat hp, ih]

/-- When the cause's text is not a suffix of the level's text and the
level's text ends in neither whitespace nor a colon, the cleaning step
changes nothing and reports `cleaned = false`. -/
theorem cleanStep_no_match (t next : String)
    (h1 : next.data.isSuffixOf t.data = false)
    (h2 : lastCharOk t.data = true) :
    cleanStep t next = (t, false) := by
  have hlast : ∀ c, t.data.getLast? = some c →
      c.isWhitespace = false ∧ (c == ':') = false := by
    intro c hc
    unfold lastCharOk at h2
    rw [hc] at h2
    simp only [Bool.and_eq_true, Bool.not_eq_true'] at h2
    exact h2
  have e1 : trimEndMatchesL t.data next.data = t.data := trimEndMatchesL_no _ _ h1
  have e2 : trimEndL t.data = t.data :=
    revDropWhileKeep _ _ (fun c hc => (hlast c hc).1)
  have e3 : trimEndColonsL t.data = t.data :=
    revDropWhileKeep _ _ (fun c hc => (hlast c hc).2)
  rw [cleanStepData, e1, e2, e3, List.take_length]
  simp

/-!  Claims. -/

/-- An empty span trace used for the concrete counterexample values. -/
def spanA : SpanTrace := ⟨false, ""⟩

/-- A Flexible value with no message and no nested cause. -/
def wInner : Error := .whatever none spanA none none

/-- The value `wInner` re-wrapped via `context("m")`. -/
def wOuter : Error := .whatever (some "m") spanA (some wInner) none

/-- C1 counterexample: re-wrapping an existing Unified Error Value does
not produce the new root marker followed directly by the nested value's
node list — the `Whatever` arm of `Error::stack` first pushes a
`Source::Error` display node for the nested value, and the appended nested
stack retains its own root marker. -/
theorem c1_counterexample :
    contextError (T := Unit) (.error wInner) "m" spanA none = .error wOuter
      ∧ Error.stack wOuter
          ≠ ((none : Option Backtrace), Source.root) :: Error.stack wInner
      ∧ Error.stack wOuter
          = [((none : Option Backtrace), Source.root),
             ((none : Option Backtrace), Source.error "Error"),
             ((none : Option Backtrace), Source.root)] := by
  refine ⟨rfl, by decide, by decide⟩

/-- C1 (amended): re-wrapping an existing Unified Error Value `e` via
`context`/`with_context` yields a `Whatever` whose chain is the new root
marker, then one `Source::Error` node displaying `e`, then `e`'s full
flattened node list (including `e`'s own root marker); the chain never
holds two adjacent root markers. -/
theorem c1_rewrap_stack (e : Error) (m : String) (st : SpanTrace)
    (bt : Option CrateBacktrace) :
    contextError (T := Unit) (.error e) m st bt
        = .error (Error.whatever (some m) st (some e) bt)
      ∧ withContextError (T := Unit) (.error e) (fun _ => m) st bt
        = .error (Error.whatever (some m) st (some e) bt)
      ∧ (Error.whatever (some m) st (some e) bt).stack
          = (bt.map .crate, .root) :: (e.backtraceM, .error e.display) :: e.stack
      ∧ noAdjRoots (Error.whatever (some m) st (some e) bt).stack = true :=
  ⟨rfl, rfl, rfl, stack_noAdjRoots _⟩

/-- The chain used in the C2 counterexample: display texts
`"A: B: C"` / `"B: C"` / `"C"`, no backtrace. -/
def c2err : FErr := ⟨.cons "A: B: C" none (.cons "B: C" none (.last "C" none)), none⟩

set_option maxRecDepth 40000 in
/-- C2 counterexample: with the toggle variable absent, text-cleaning
counts as enabled, yet the formatter's output holds the raw numbered cause
line `"  1: B: C"` and not the cleaned line `"  1: B *"` that the
text-deduplication pass would produce — the cleaning branch of
`ReportFormatter::fmt` is commented out in the source. -/
theorem c2_counterexample :
    trace_cleaning_enabled none = true
      ∧ "  1: B: C\n".data <:+: (reportFormatterFmt c2err none).data
      ∧ ¬ ("  1: B *\n".data <:+: (reportFormatterFmt c2err none).data)
      ∧ "  1: B *\n".data <:+: (cleanedErrorTrace c2err).data := by
  refine ⟨rfl, by decide, by decide, ?_⟩
  have h1 : cleanStep "A: B: C" "B: C" = ("A", true) := by
    rw [cleanStepData]
    have e1 : trimEndMatchesL "A: B: C".data "B: C".data = "A: ".data := by
      rw [trimEndMatchesL]
      norm_num
      rw [trimEndMatchesL_no _ _ (by decide)]
      decide
    rw [e1]
    decide
  have h2 : cleanStep "B: C" "C" = ("B", true) := by
    rw [cleanStepData]
    have e2 : trimEndMatchesL "B: C".data "C".data = "B: ".data := by
      rw [trimEndMatchesL]
      norm_num
      rw [trimEndMatchesL_no _ _ (by decide)]
      decide
    rw [e2]
    decide
  unfold cleanedErrorTrace c2err
  simp only [cleanedErrorText, Foreign.text, h1, h2]
  decide

/-- C2 (amended): the report formatter's output does not depend on the
toggle variable at all; for every failure it starts with the raw display
text and holds the numbered raw (uncleaned) cause lines — the cleaning
branch is disabled in the source. -/
theorem c2_fmt_always_raw (e : FErr) (env1 env2 : Option String) :
    reportFormatterFmt e env1 = reportFormatterFmt e env2
      ∧ (e.err.text ++ "\n").data <+: (reportFormatterFmt e env1).data
      ∧ (rawCauseLines ((chainList e.err).drop 1)).data
          <:+: (reportFormatterFmt e env1).data := by
  refine ⟨rfl, ?_, ?_⟩
  · refine ⟨(causedByTrailer (min ((chainList e.err).drop 1).length 2)
        ++ rawCauseLines ((chainList e.err).drop 1) ++ btBlock e).data, ?_⟩
    simp [reportFormatterFmt, errorTrace, data_append, List.append_assoc]
  · refine ⟨(e.err.text ++ "\n"
        ++ causedByTrailer (min ((chainList e.err).drop 1).length 2)).data,
      (btBlock e).data, ?_⟩
    simp [reportFormatterFmt, errorTrace, data_append, List.append_assoc]

/-- C3 counterexample: `"boom:"` does not end with the cause text
`"xyz"`, yet the cleaning step still strips the trailing colon, returning
changed text and a true cleaned flag — the whitespace/colon trims of
`CleanedErrorText::next` run even when no suffix matched. -/
theorem c3_counterexample :
    "xyz".data.isSuffixOf "boom:".data = false
      ∧ cleanStep "boom:" "xyz" = ("boom", true)
      ∧ ("boom" : String) ≠ "boom:" := by
  refine ⟨by decide, ?_, by decide⟩
  rw [cleanStepData, trimEndMatchesL_no _ _ (by decide)]
  decide

/-- C3 (amended): a chain level whose display text does not end with its
cause's display text — nor with whitespace or a colon — passes through the
deduplication step unchanged with a false cleaned flag, and (when the text
is nonempty) is not removed from the output. -/
theorem c3_no_match_level (t0 : String) (pr : Option (Option Backtrace)) (s : Foreign)
    (h1 : s.text.data.isSuffixOf t0.data = false)
    (h2 : lastCharOk t0.data = true) :
    cleanedErrorText (.cons t0 pr s)
        = (Foreign.cons t0 pr s, t0, false) :: cleanedErrorText s
      ∧ (t0 ≠ "" → (cleanStep t0 s.text).1 ≠ "") := by
  have h := cleanStep_no_match t0 s.text h1 h2
  constructor
  · cases s <;> simp [cleanedErrorText, h]
  · intro ht
    rw [h]
    exact ht

/-- Witness for `c3_no_match_level` at the chain `"boom"` over `"xyz"`. -/
theorem c3_no_match_level_witness :
    "xyz".data.isSuffixOf "boom".data = false
      ∧ lastCharOk "boom".data = true
      ∧ (cleanedErrorText (.cons "boom" none (.last "xyz" none))
          = (Foreign.cons "boom" none (.last "xyz" none), "boom", false)
              :: cleanedErrorText (.last "xyz" none)
        ∧ (("boom" : String) ≠ ""
            → (cleanStep "boom" (Foreign.text (.last "xyz" none))).1 ≠ "")) :=
  ⟨by decide, by decide,
    c3_no_match_level "boom" none (.last "xyz" none) (by decide) (by decide)⟩

/-- C4 counterexample: on the text `"x: failfail"` with cause text
`"fail"` — two consecutive trailing copies — the cleaning step removes
both copies (and then the trailing whitespace and colon), producing
`"x"`, not the single-occurrence result `"x: fail"` the claim predicts. -/
theorem c4_counterexample :
    "x: failfail".data = "x: ".data ++ (List.replicate 2 "fail".data).flatten
      ∧ cleanStep "x: failfail" "fail" = ("x", true)
      ∧ ("x" : String) ≠ "x: fail" := by
  refine ⟨by decide, ?_, by decide⟩
  rw [cleanStepData]
  have e1 : trimEndMatchesL "x: failfail".data "fail".data = "x: ".data := by
    have h := trimEndMatchesL_reps "x: ".data "fail".data 2 (by decide)
    have hd : "x: ".data ++ (List.replicate 2 "fail".data).flatten
        = "x: failfail".data := by decide
    rw [hd] at h
    rw [h, trimEndMatchesL_no _ _ (by decide)]
  rw [e1]
  decide

/-- C4 (amended): the stripping step removes all consecutive trailing
occurrences of the cause's text (then the trailing whitespace, then all
trailing colons): for a text made of a base followed by `k ≥ 1` copies of
the cause's text, the cleaned text is the fully trimmed base — independent
of `k` — and the cleaned flag is true. -/
theorem c4_strip_all (base pat : String) (k : Nat)
    (hp : pat.data ≠ [])
    (hk : 1 ≤ k)
    (hns : pat.data.isSuffixOf base.data = false) :
    cleanStep (String.mk (base.data ++ (List.replicate k pat.data).flatten)) pat
      = (String.mk (trimEndColonsL (trimEndL base.data)), true) := by
  rw [cleanStepData]
  rw [show (String.mk (base.data ++ (List.replicate k pat.data).flatten)).data
      = base.data ++ (List.replicate k pat.data).flatten from rfl]
  rw [trimEndMatchesL_reps _ _ _ hp, trimEndMatchesL_no _ _ hns]
  have hpre : trimEndColonsL (trimEndL base.data) <+: base.data :=
    (trimEndColonsL_isPre _).trans (trimEndL_isPre _)
  have htake : (base.data ++ (List.replicate k pat.data).flatten).take
      (trimEndColonsL (trimEndL base.data)).length
      = trimEndColonsL (trimEndL base.data) :=
    prefix_take (hpre.trans (List.prefix_append _ _))
  rw [htake]
  have hlen : (trimEndColonsL (trimEndL base.data)).length
      ≠ (base.data ++ (List.replicate k pat.data).flatten).length := by
    have h1 : (trimEndColonsL (trimEndL base.data)).length ≤ base.data.length :=
      hpre.length_le
    have h2 : ((List.replicate k pat.data).flatten).length = k * pat.data.length := by
      simp [List.length_flatten, List.map_replicate, List.sum_replicate, smul_eq_mul]
    have h3 : 0 < pat.data.length := List.length_pos.mpr hp
    have h4 : pat.data.length ≤ k * pat.data.length :=
      Nat.le_mul_of_pos_left _ hk
    rw [List.length_append, h2]
    omega
  rw [decide_eq_true hlen]

/-- Witness for `c4_strip_all`: base `"x: "`, cause `"fail"`, two
copies. -/
theorem c4_strip_all_witness :
    "fail".data ≠ []
      ∧ 1 ≤ 2
      ∧ "fail".data.isSuffixOf "x: ".data = false
      ∧ cleanStep (String.mk ("x: ".data ++ (List.replicate 2 "fail".data).flatten)) "fail"
          = (String.mk (trimEndColonsL (trimEndL "x: ".data)), true) :=
  ⟨by decide, by decide, by decide,
    c4_strip_all "x: " "fail" 2 (by decide) (by decide) (by decide)⟩

/-- C5: wrapping a foreign failure `E` via `context(msg)` yields
`Error::Message`, whose walker chain is the root marker followed by one
node per link of `E`'s own natural cause chain — length
`E.chainLength + 1`. -/
theorem c5_context_chain_length (E : Foreign) (msg : String) (st : SpanTrace)
    (bt : Option CrateBacktrace) :
    contextForeign (T := Unit) (.error E) msg st bt
        = .error (.message (some msg) E st bt)
      ∧ (Error.stack (.message (some msg) E st bt)).length = E.chainLength + 1 := by
  refine ⟨rfl, ?_⟩
  simp [Error.stack, walkChain, walkChainF_length]

/-- C6: `None` wrapped via `context(c)` reports failure and yields the
chain of length exactly 2: the root marker, then the synthesized
`NoneError` cause node (display `"Expected some, found none"`). -/
theorem c6_option_context_none (c : String) (st : SpanTrace)
    (bt : Option CrateBacktrace) :
    isErr (contextOption (T := Unit) none c st bt) = true
      ∧ contextOption (T := Unit) none c st bt
          = .error (.message (some c) noneError st bt)
      ∧ (Error.stack (.message (some c) noneError st bt)).length = 2
      ∧ Error.stack (.message (some c) noneError st bt)
          = [(bt.map .crate, .root),
             ((none : Option Backtrace), .snafuError "Expected some, found none")] :=
  ⟨rfl, rfl, rfl, rfl⟩

/-- C7: the Termination adapter maps success to exit status 0 with no
output, and failure to exit status 1 with the diagnostic text — starting
with `"Error: "` and the failure's display text — written to the error
stream. -/
theorem c7_termination (envRaw : Option String) (e : FErr) :
    Report.termination Report.ok envRaw = (0, "")
      ∧ (Report.termination (Report.from_error e) envRaw).1 = 1
      ∧ (Report.termination (Report.from_error e) envRaw).2
          = "Error: " ++ reportFormatterFmt e envRaw ++ "\n"
      ∧ ("Error: " ++ e.err.text).data
          <+: (Report.termination (Report.from_error e) envRaw).2.data := by
  refine ⟨rfl, rfl, rfl, ?_⟩
  refine ⟨("\n" ++ causedByTrailer (min ((chainList e.err).drop 1).length 2)
      ++ rawCauseLines ((chainList e.err).drop 1) ++ btBlock e ++ "\n").data, ?_⟩
  simp [Report.termination, Report.from_error, reportFormatterFmt, errorTrace,
    data_append, List.append_assoc]

/-- A dependency-code frame whose name carries one of the fixed noise
markers (the `core` polling glue the always-on filter targets). -/
def pollFrame : Frame :=
  ⟨some "<core::pin::Pin<P> as core::future::future::Future>::poll", true⟩

/-- C8 counterexample: at verbosity `Full` a frame attributed to
dependency code is nevertheless removed when its name starts with one of
the fixed noise markers — the always-on noise filter runs at every
verbosity level, so dependency frames are not universally retained at
`Full`. -/
theorem c8_counterexample :
    pollFrame.isDependencyCode = true
      ∧ retainFrame pollFrame = false
      ∧ filterFrames .full [pollFrame] = [] := by
  refine ⟨rfl, by decide, by decide⟩

/-- C8 (amended): a frame survives the filter pipeline iff it came from
the input, its name starts with none of the fixed noise markers, and —
unless verbosity is `Full` — it is not attributed to dependency code.
Hence noise-named frames are removed at every verbosity, dependency
frames are removed below `Full`, and all other frames (dependency ones
included) are retained at `Full`. -/
theorem c8_filterFrames_mem (verb : Verbosity) (frames : List Frame) (fr : Frame) :
    fr ∈ filterFrames verb frames
      ↔ fr ∈ frames ∧ retainFrame fr = true
          ∧ (verb = .full ∨ fr.isDependencyCode = false) := by
  unfold filterFrames
  cases verb <;> simp [List.mem_filter, and_assoc] <;> tauto

/-- C9: the full-trace renderer is deterministic: with the process state
threaded explicitly, rendering mutates nothing, and rendering the same
Unified Error Value twice under an unchanged environment produces
byte-identical output. -/
theorem c9_render_idempotent (e : Error) (s : ProcState) :
    (renderDebugSt e ((renderDebugSt e s).2)).1 = (renderDebugSt e s).1
      ∧ (renderDebugSt e s).2 = s
      ∧ (renderDebugSt e ((renderDebugSt e s).2)).2 = s :=
  ⟨rfl, rfl, rfl⟩

/-- C10: the Flexible (`Whatever`) variant with no message and no nested
cause displays exactly the literal `"Error"`. -/
theorem c10_whatever_empty_display (st : SpanTrace) (bt : Option CrateBacktrace) :
    Error.display (Error.whatever none st none bt) = "Error" := rfl

end N0Snafu
